import Mathlib

/-!
Shallow embedding of the GameOfLife ecosystem-simulation core
(`src/entities/gol_grid.py`, `Entity.py`, `MobileEntity.py`, `Plant.py`,
`Herbivore.py`, `Predator.py`, `omnivore.py`, `entity_factory.py`).

Modelling conventions:
* Python object identity is modelled by an `eid : Nat` field; the Python
  grid `self.grid` (a nested list built as `height` rows of `width` cells,
  indexed `grid[x][y]` by all the access sites) is modelled by
  `cells : List (List (List Entity))` holding exactly that nested list.
* Python runtime errors (`TypeError` from `None - 1`, `TypeError` from
  `isinstance(e, [Plant])` with a `list` second argument, `IndexError` from
  `random.choice([])`) are modelled by `Except Unit`.
* `random.choice(xs)` is modelled by consuming one draw `r` from an explicit
  stream `rng : List Nat` and returning `xs[r % len xs]` (error on empty
  `xs`, like `random.choice`).  The Bernoulli trial of
  `randomly_add_entity` compares floats; the claims only depend on its
  outcome, so the trial result is passed as an explicit `trialPass : Bool`.
* Distance comparisons: the source compares `math.sqrt` of integer squared
  distances; `sqrt` is strictly monotone, so they are embedded as exact
  comparisons of the integer squared distances themselves.
* `Optional[int]` fields are `Option Int`.  `T_cooldown` is always supplied
  as an integer by `EntityFactory`, so `baseMatingCoolDown` is an `Int`.
-/

instance {ε α : Type} [DecidableEq ε] [DecidableEq α] : DecidableEq (Except ε α) :=
  fun a b =>
    match a, b with
    | .error x, .error y => decidable_of_iff (x = y) (by simp)
    | .error _, .ok _ => .isFalse (by simp)
    | .ok _, .error _ => .isFalse (by simp)
    | .ok x, .ok y => decidable_of_iff (x = y) (by simp)

inductive Species where
  | plant
  | herbivore
  | predator
  | omnivore
deriving DecidableEq, Repr

/-- Lowercase type name, as produced by `type(entity).__name__.lower()`. -/
def speciesName : Species → String
  | .plant => "plant"
  | .herbivore => "herbivore"
  | .predator => "predator"
  | .omnivore => "omnivore"

/-- One simulation entity; the union of the fields of `Entity`,
`MobileEntity` and the herbivore/omnivore mating fields.  `eid` models
Python object identity. -/
structure Entity where
  eid : Nat
  species : Species
  x : Nat
  y : Nat
  ttl : Option Int
  baseTtl : Option Int
  sightRadius : Option Nat
  matingCoolDown : Int
  baseMatingCoolDown : Int
deriving DecidableEq, Repr

/-- Embeds `Entity.should_be_removed`: `self.ttl is not None and self.ttl <= 0`. -/
def shouldBeRemoved (e : Entity) : Bool :=
  match e.ttl with
  | none => false
  | some t => t ≤ 0

/-- Embeds `Entity.reset_ttl`: `self.ttl = self.base_ttl`. -/
def resetTtl (e : Entity) : Entity := { e with ttl := e.baseTtl }

/-- Embeds `Herbivore.can_mate` / `Omnivore.can_mate`: `self.mating_cool_down <= 0`. -/
def canMate (e : Entity) : Bool := e.matingCoolDown ≤ 0

/-- Embeds `reset_mating_cooldown`: `self.mating_cool_down = self.base_mating_cool_down`. -/
def resetMatingCooldown (e : Entity) : Entity :=
  { e with matingCoolDown := e.baseMatingCoolDown }

/-- Embeds `self.ttl -= 1`: a Python `TypeError` (`None - 1`) when `ttl` is `None`. -/
def decTtl : Option Int → Except Unit (Option Int)
  | none => .error ()
  | some t => .ok (some (t - 1))

abbrev Cell := List Entity

/-- The statistics dictionary `self.statistics` (string → int counter). -/
abbrev Stats := List (String × Int)

/-- Per-species construction parameters read from `config['parameters']`
by `EntityFactory`. -/
structure FactoryParams where
  plantLifespan : Option Int
  tHerbivore : Option Int
  rHerbivoreSight : Option Nat
  tCooldownHerbivore : Int
  tPredator : Option Int
  rPredatorSight : Option Nat
  tOmnivore : Option Int
  rOmnivoreSight : Option Nat
  tCooldownOmnivore : Int
deriving DecidableEq, Repr

/-- The mutable state of a `GOLGrid` object: dimensions, the nested cell
list, the statistics dictionary, the factory parameters and a fresh-id
counter modelling allocation of new Python objects. -/
structure GOLGrid where
  width : Nat
  height : Nat
  cells : List (List Cell)
  stats : Stats
  params : FactoryParams
  nextId : Nat
deriving DecidableEq, Repr

/-- Read `self.grid[x][y]`.  All claim scenarios only read indices that are
in range of the constructed nested list, where this equals the Python
access. -/
def getCell (g : GOLGrid) (x y : Nat) : Cell :=
  (g.cells.getD x []).getD y []

/-- Write `self.grid[x][y] = c` (no-op out of range; all claim scenarios
stay in range). -/
def setCell (g : GOLGrid) (x y : Nat) (c : Cell) : GOLGrid :=
  { g with cells := g.cells.set x ((g.cells.getD x []).set y c) }

/-- Embeds `GOLGrid.record_stat`: create-if-absent then increment. -/
def recordStat (g : GOLGrid) (name : String) (value : Int) : GOLGrid :=
  let rec bump : Stats → Stats
    | [] => [(name, value)]
    | (k, v) :: rest => if k = name then (k, v + value) :: rest else (k, v) :: bump rest
  { g with stats := bump g.stats }

/-- Look a statistic up (0 when the key was never created). -/
def statValue (g : GOLGrid) (name : String) : Int :=
  match g.stats.find? (fun kv => kv.1 = name) with
  | some kv => kv.2
  | none => 0

/-- Python `range(a, b)` as a list. -/
def pyRange (a b : Nat) : List Nat := (List.range (b - a)).map (a + ·)

/-- Embeds `itertools.product(xs, ys)` in the source's iteration order
(first coordinate outermost). -/
def pyProduct (xs ys : List Nat) : List (Nat × Nat) :=
  xs.flatMap (fun x => ys.map (fun y => (x, y)))

/-- Embeds `validate_coordinates(x, y, grid)`: `0 <= x < len(grid)` and
`0 <= y < len(grid[0])`.  Coordinates reaching it are naturals, so the
negativity tests are dropped. -/
def validateCoordinates (x y : Nat) (cells : List (List Cell)) : Bool :=
  x < cells.length ∧ y < (cells.headD []).length

/-- Embeds `GOLGrid.get_all_possible_steps`: the ranges are clipped with
`self.width` / `self.height`, the filter with the constructed array shape. -/
def getAllPossibleSteps (g : GOLGrid) (x y : Nat) : List (Nat × Nat) :=
  let xRange := pyRange (x - 1) (min g.width (x + 2))
  let yRange := pyRange (y - 1) (min g.height (y + 2))
  (pyProduct xRange yRange).filter (fun p => validateCoordinates p.1 p.2 g.cells)

/-- Embeds `random.choice(xs)` with the draw taken from the head of the stream;
`IndexError` on an empty list. -/
def randChoice (xs : List (Nat × Nat)) (rng : List Nat) :
    Except Unit ((Nat × Nat) × List Nat) :=
  if xs.isEmpty then .error ()
  else .ok (xs.getD (rng.headD 0 % xs.length) (0, 0), rng.tail)

/-- Embeds `GOLGrid.get_all_cells_with_type` for a proper class argument
(`isinstance(entity, object_type)` with a single concrete class is species
equality): the full row-major scan `product(range(width), range(height))`. -/
def getAllCellsWithType (g : GOLGrid) (s : Species) : List (Nat × Nat) :=
  (pyProduct (pyRange 0 g.width) (pyRange 0 g.height)).filter
    (fun p => (getCell g p.1 p.2).any (fun e => e.species = s))

/-- Embeds `GOLGrid.get_all_cells_with_type` as invoked by `Herbivore.update` /
`Omnivore.update`, whose `object_type` argument is a Python *list* of
classes: `isinstance(entity, [Plant])` raises `TypeError`, so the scan
raises at the first entity of the first non-empty cell and only returns
(an empty list) when every cell scanned is empty. -/
def getAllCellsWithTypeList (g : GOLGrid) (_ : List Species) :
    Except Unit (List (Nat × Nat)) :=
  if (pyProduct (pyRange 0 g.width) (pyRange 0 g.height)).all
      (fun p => (getCell g p.1 p.2).isEmpty) then
    .ok []
  else
    .error ()

/-- Embeds `GOLGrid.get_all_empty_cells`. -/
def getAllEmptyCells (g : GOLGrid) : List (Nat × Nat) :=
  (pyProduct (pyRange 0 g.width) (pyRange 0 g.height)).filter
    (fun p => (getCell g p.1 p.2).isEmpty)

/-- Embeds `GOLGrid.is_object_type_in_cell` (always called with a single class). -/
def isObjectTypeInCell (g : GOLGrid) (x y : Nat) (s : Species) : Bool :=
  (getCell g x y).any (fun e => e.species = s)

/-- Integer squared Euclidean distance; the source compares
`math.sqrt` of exactly this quantity, and `sqrt` is strictly monotone. -/
def dist2 (ax ay bx by' : Nat) : Int :=
  ((ax : Int) - bx) * ((ax : Int) - bx) + ((ay : Int) - by') * ((ay : Int) - by')

/-- The strict-minimum fold shared by `get_closest_object_coordinates` and
`get_next_position_towards_object`: start from "no best yet / infinite
distance" and replace the best only on a strictly smaller distance, so ties
keep the first cell in scan order. -/
def minDistFold (fromX fromY : Nat) (cells : List (Nat × Nat)) :
    Option (Nat × Nat) :=
  (cells.foldl
    (fun best p =>
      match best with
      | none => some (p, dist2 p.1 p.2 fromX fromY)
      | some (q, d) =>
          if dist2 p.1 p.2 fromX fromY < d then some (p, dist2 p.1 p.2 fromX fromY)
          else some (q, d))
    none).map Prod.fst

/-- Embeds `MobileEntity.get_closest_object_coordinates` (single-class form).  The
source's `(-1, -1)` sentinel (returned exactly when the scan finds no cell)
is `none`; grid cells are naturals, so the sentinel never collides. -/
def getClosestObjectCoordinates (g : GOLGrid) (s : Species) (x y : Nat) :
    Option (Nat × Nat) :=
  minDistFold x y (getAllCellsWithType g s)

/-- Embeds `MobileEntity.get_next_position_towards_object`: the step from the
*current* position whose distance to the target is smallest; `None`
(propagating a `TypeError` at the caller's tuple unpacking) when there are
no possible steps. -/
def getNextPositionTowardsObject (g : GOLGrid) (x y tx ty : Nat) :
    Option (Nat × Nat) :=
  minDistFold tx ty (getAllPossibleSteps g x y)

/-- Embeds `MobileEntity.get_random_step`: `random.choice` over all possible steps
(`IndexError` when none). -/
def getRandomStep (g : GOLGrid) (x y : Nat) (rng : List Nat) :
    Except Unit ((Nat × Nat) × List Nat) :=
  randChoice (getAllPossibleSteps g x y) rng

/-- Embeds `MobileEntity.get_next_position` when called with a single class
(the `Predator.update` call): seek the closest target cell greedily, or
wander randomly when no target exists anywhere. -/
def getNextPosition (g : GOLGrid) (s : Species) (x y : Nat) (rng : List Nat) :
    Except Unit ((Nat × Nat) × List Nat) :=
  match getClosestObjectCoordinates g s x y with
  | some (tx, ty) =>
      match getNextPositionTowardsObject g x y tx ty with
      | some p => .ok (p, rng)
      | none => .error ()
  | none => getRandomStep g x y rng

/-- Embeds `MobileEntity.get_next_position` when called with a *list* of classes
(the `Herbivore.update` / `Omnivore.update` calls): the target scan raises
`TypeError` unless every cell of the grid is empty, in which case the
search trivially finds nothing and the entity wanders. -/
def getNextPositionList (g : GOLGrid) (ts : List Species) (x y : Nat)
    (rng : List Nat) : Except Unit ((Nat × Nat) × List Nat) :=
  match getAllCellsWithTypeList g ts with
  | .error () => .error ()
  | .ok cells =>
      match minDistFold x y cells with
      | some (tx, ty) =>
          match getNextPositionTowardsObject g x y tx ty with
          | some p => .ok (p, rng)
          | none => .error ()
      | none => getRandomStep g x y rng

/-- Embeds `EntityFactory.create_entity` / `create_plant` / `create_herbivore` /
`create_predator` / `create_omnivore`: builds the species' field values
from `config['parameters']`; the returned grid has allocated a fresh
object id. -/
def createEntity (g : GOLGrid) (s : Species) (x y : Nat) : Entity × GOLGrid :=
  let p := g.params
  let e : Entity :=
    match s with
    | .plant =>
        ⟨g.nextId, .plant, x, y, p.plantLifespan, p.plantLifespan, none, 0, 0⟩
    | .herbivore =>
        ⟨g.nextId, .herbivore, x, y, p.tHerbivore, p.tHerbivore,
          p.rHerbivoreSight, 0, p.tCooldownHerbivore⟩
    | .predator =>
        ⟨g.nextId, .predator, x, y, p.tPredator, p.tPredator,
          p.rPredatorSight, 0, 0⟩
    | .omnivore =>
        ⟨g.nextId, .omnivore, x, y, p.tOmnivore, p.tOmnivore,
          p.rOmnivoreSight, 0, p.tCooldownOmnivore⟩
  (e, { g with nextId := g.nextId + 1 })

/-- The qualifying-cell computation of `GOLGrid.add_entity_in_range`:
range bounds clipped with `width`/`height`, `validate_coordinates` filter,
`list.remove` of the center (first occurrence, only when present), then
the optional empty-cell filter. -/
def possibleCellsInRange (g : GOLGrid) (cx cy rd : Nat)
    (excludeCenter onlyEmpty : Bool) : List (Nat × Nat) :=
  let xRange := pyRange (cx - rd) (min g.width (cx + rd + 1))
  let yRange := pyRange (cy - rd) (min g.height (cy + rd + 1))
  let possible := (pyProduct xRange yRange).filter
    (fun p => validateCoordinates p.1 p.2 g.cells)
  let possible := if excludeCenter then possible.erase (cx, cy) else possible
  if onlyEmpty then possible.filter (fun p => (getCell g p.1 p.2).isEmpty)
  else possible

/-- Embeds `GOLGrid.add_entity_in_range`: place a factory-built entity in a
uniformly chosen qualifying cell; `False` (with nothing changed) when no
cell qualifies. -/
def addEntityInRange (g : GOLGrid) (s : Species) (cx cy rd : Nat)
    (excludeCenter onlyEmpty : Bool) (rng : List Nat) :
    Bool × GOLGrid × List Nat :=
  match randChoice (possibleCellsInRange g cx cy rd excludeCenter onlyEmpty) rng with
  | .error () => (false, g, rng)
  | .ok ((nx, ny), rng') =>
      let (ent, g1) := createEntity g s nx ny
      (true, setCell g1 nx ny (getCell g1 nx ny ++ [ent]), rng')

/-- Embeds `GOLGrid.randomly_add_entity`.  The Bernoulli trial
`(1 - random.random()) >= probability` compares floats; only its outcome
matters to the claims, so it is passed in as `trialPass`. -/
def randomlyAddEntity (g : GOLGrid) (s : Species) (trialPass onlyEmpty : Bool)
    (rng : List Nat) : Bool × GOLGrid × List Nat :=
  if !trialPass then (false, g, rng)
  else
    let available :=
      if onlyEmpty then getAllEmptyCells g
      else pyProduct (pyRange 0 g.width) (pyRange 0 g.height)
    match randChoice available rng with
    | .error () => (false, g, rng)
    | .ok ((x, y), rng') =>
        let (ent, g1) := createEntity g s x y
        let g2 := setCell g1 x y (getCell g1 x y ++ [ent])
        (true, recordStat g2 (speciesName s ++ "_spawned") 1, rng')

/-- The in-place `mate_herbivore.reset_mating_cooldown()` /
`mate_omnivore.reset_mating_cooldown()`: the mate is
`mateable_xs[0]`, i.e. the first entity of the cell of the right species
that can mate; it is mutated inside the grid cell holding it. -/
def resetFirstMateable (s : Species) : Cell → Cell
  | [] => []
  | e :: rest =>
      if e.species = s ∧ canMate e then resetMatingCooldown e :: rest
      else e :: resetFirstMateable s rest

/-- The result of one `entity.update(gol_grid)` call: the
`(to_keep, new_x, new_y)` tuple plus the updated entity fields, grid and
random stream.  The source returns the coordinates `(-1, -1)` on removal;
the scheduler never reads them, so they are modelled as `(0, 0)`. -/
structure UpdateResult where
  keep : Bool
  newX : Nat
  newY : Nat
  entity : Entity
  grid : GOLGrid
  rng : List Nat
deriving DecidableEq, Repr

/-- Embeds `Plant.update`: removal check, then age by one (a `TypeError` when
`ttl` is `None`); plants do not move. -/
def plantUpdate (e : Entity) (g : GOLGrid) (rng : List Nat) :
    Except Unit UpdateResult :=
  if shouldBeRemoved e then .ok ⟨false, 0, 0, e, g, rng⟩
  else
    match decTtl e.ttl with
    | .error () => .error ()
    | .ok ttl' => .ok ⟨true, e.x, e.y, { e with ttl := ttl' }, g, rng⟩

/-- Embeds `Predator.update`: removal check, age, move toward the closest
herbivore (class argument, not a list), eat every herbivore in the target
cell (count-aware statistic), reset `ttl` on eating. -/
def predatorUpdate (e : Entity) (g : GOLGrid) (rng : List Nat) :
    Except Unit UpdateResult :=
  if shouldBeRemoved e then .ok ⟨false, 0, 0, e, g, rng⟩
  else
    match decTtl e.ttl with
    | .error () => .error ()
    | .ok ttl' =>
        let e1 := { e with ttl := ttl' }
        match getNextPosition g .herbivore e1.x e1.y rng with
        | .error () => .error ()
        | .ok ((nx, ny), rng1) =>
            if isObjectTypeInCell g nx ny .herbivore then
              let eaten := ((getCell g nx ny).filter
                (fun o => o.species = .herbivore)).length
              let g1 := setCell g nx ny ((getCell g nx ny).filter
                (fun o => ¬(o.species = .herbivore)))
              let g2 := recordStat g1 "herbivore_eaten_by_predator" eaten
              .ok ⟨true, nx, ny, resetTtl e1, g2, rng1⟩
            else .ok ⟨true, nx, ny, e1, g, rng1⟩

/-- Embeds `Herbivore.update`: removal check, age, move (the call passes the
Python list `[Plant]`, so the move raises `TypeError` unless the whole
grid is empty), then the mating block, then the plant-eating block
(count-aware statistic). -/
def herbivoreUpdate (e : Entity) (g : GOLGrid) (rng : List Nat) :
    Except Unit UpdateResult :=
  if shouldBeRemoved e then .ok ⟨false, 0, 0, e, g, rng⟩
  else
    match decTtl e.ttl with
    | .error () => .error ()
    | .ok ttl' =>
        let e1 := { e with ttl := ttl' }
        match getNextPositionList g [.plant] e1.x e1.y rng with
        | .error () => .error ()
        | .ok ((nx, ny), rng1) =>
            let mated : Entity × GOLGrid × List Nat :=
              if isObjectTypeInCell g nx ny .herbivore ∧ canMate e1 then
                let mateable := (getCell g nx ny).filter
                  (fun h => h.species = .herbivore ∧ canMate h)
                if 1 ≤ mateable.length then
                  let g1 := setCell g nx ny
                    (resetFirstMateable .herbivore (getCell g nx ny))
                  let e2 := resetMatingCooldown e1
                  let (success, g2, rng2) :=
                    addEntityInRange g1 .herbivore nx ny 1 true false rng1
                  if success then (e2, recordStat g2 "herbivore_reproduced" 1, rng2)
                  else (e2, g2, rng2)
                else (e1, g, rng1)
              else (e1, g, rng1)
            let (e2, g1, rng2) := mated
            if isObjectTypeInCell g1 nx ny .plant then
              let eaten := ((getCell g1 nx ny).filter
                (fun o => o.species = .plant)).length
              let g2 := setCell g1 nx ny ((getCell g1 nx ny).filter
                (fun o => ¬(o.species = .plant)))
              .ok ⟨true, nx, ny, resetTtl e2,
                recordStat g2 "plant_eaten_by_herbivore" eaten, rng2⟩
            else .ok ⟨true, nx, ny, e2, g1, rng2⟩

/-- Embeds `Omnivore.update`: removal check, age, move (the call passes the
Python list `[Plant, Herbivore, Predator]`, so the move raises `TypeError`
unless the whole grid is empty), then the eating block (all three food
species are removed, but the statistic records a single event of amount 1
for the first matching species of the `if/elif` chain — `objects_eaten` is
computed in the source and never used for the statistic), then the mating
block. -/
def omnivoreUpdate (e : Entity) (g : GOLGrid) (rng : List Nat) :
    Except Unit UpdateResult :=
  if shouldBeRemoved e then .ok ⟨false, 0, 0, e, g, rng⟩
  else
    match decTtl e.ttl with
    | .error () => .error ()
    | .ok ttl' =>
        let e1 := { e with ttl := ttl' }
        match getNextPositionList g [.plant, .herbivore, .predator] e1.x e1.y rng with
        | .error () => .error ()
        | .ok ((nx, ny), rng1) =>
            let isP := isObjectTypeInCell g nx ny .plant
            let isH := isObjectTypeInCell g nx ny .herbivore
            let isPr := isObjectTypeInCell g nx ny .predator
            let eatenStep : Entity × GOLGrid :=
              if isP ∨ isH ∨ isPr then
                let g1 := setCell g nx ny ((getCell g nx ny).filter
                  (fun o => ¬(o.species = .plant) ∧ ¬(o.species = .herbivore) ∧
                    ¬(o.species = .predator)))
                let g2 :=
                  if isP then recordStat g1 "plant_eaten_by_omnivore" 1
                  else if isH then recordStat g1 "herbivore_eaten_by_omnivore" 1
                  else recordStat g1 "predator_eaten_by_omnivore" 1
                (resetTtl e1, g2)
              else (e1, g)
            let (e2, g1) := eatenStep
            let mated : Entity × GOLGrid × List Nat :=
              if isObjectTypeInCell g1 nx ny .omnivore ∧ canMate e2 then
                let mateable := (getCell g1 nx ny).filter
                  (fun h => h.species = .omnivore ∧ canMate h)
                if 1 ≤ mateable.length then
                  let g2 := setCell g1 nx ny
                    (resetFirstMateable .omnivore (getCell g1 nx ny))
                  let e3 := resetMatingCooldown e2
                  let (success, g3, rng2) :=
                    addEntityInRange g2 .omnivore nx ny 1 true false rng1
                  if success then (e3, recordStat g3 "omnivore_reproduced" 1, rng2)
                  else (e3, g3, rng2)
                else (e2, g1, rng1)
              else (e2, g1, rng1)
            let (e3, g2, rng2) := mated
            .ok ⟨true, nx, ny, e3, g2, rng2⟩

/-- Dynamic dispatch of `entity.update(self)` on the entity's runtime
class. -/
def entityUpdate (e : Entity) (g : GOLGrid) (rng : List Nat) :
    Except Unit UpdateResult :=
  match e.species with
  | .plant => plantUpdate e g rng
  | .herbivore => herbivoreUpdate e g rng
  | .predator => predatorUpdate e g rng
  | .omnivore => omnivoreUpdate e g rng

/-- The collection phase of `GOLGrid._update_entities_by_type`: every
`(entity, x, y, index)` tuple of the given species, in the row-major scan
order of `product(range(width), range(height))` with per-cell enumeration
order. -/
def collectEntities (g : GOLGrid) (s : Species) :
    List (Entity × Nat × Nat × Nat) :=
  (pyProduct (pyRange 0 g.width) (pyRange 0 g.height)).flatMap
    (fun p => (getCell g p.1 p.2).enum.filterMap
      (fun ie => if ie.2.species = s then some (ie.2, p.1, p.2, ie.1) else none))

/-- Stable insertion for the descending-by-index sort below: an element is
placed before the first strictly smaller index, so equal indices keep
their original (scan) order — the behaviour of Python's stable
`list.sort(key=..., reverse=True)`. -/
def insertDescByIdx (t : Entity × Nat × Nat × Nat) :
    List (Entity × Nat × Nat × Nat) → List (Entity × Nat × Nat × Nat)
  | [] => [t]
  | h :: rest =>
      if h.2.2.2 ≤ t.2.2.2 then t :: h :: rest else h :: insertDescByIdx t rest

/-- Embeds `entities_to_update.sort(key=lambda x: x[3], reverse=True)`: stable
sort on the stored cell index, descending. -/
def sortDescByIdx : List (Entity × Nat × Nat × Nat) →
    List (Entity × Nat × Nat × Nat)
  | [] => []
  | h :: t => insertDescByIdx h (sortDescByIdx t)

/-- The apply phase of `GOLGrid._update_entities_by_type`: for each
collected tuple, `pop` the stored index from the *original* cell (the
popped value is discarded by the source; out-of-range indices, which no
claim scenario reaches, would raise in Python and are a no-op here), run
the entity's update, then either re-insert it at its new position and set
its `x`/`y` fields, or record a `<species>_died_naturally` event. -/
def runEntityUpdates (s : Species) :
    List (Entity × Nat × Nat × Nat) → GOLGrid → List Nat →
    Except Unit (GOLGrid × List Nat)
  | [], g, rng => .ok (g, rng)
  | (e, ox, oy, i) :: rest, g, rng =>
      let g1 := setCell g ox oy ((getCell g ox oy).eraseIdx i)
      match entityUpdate e g1 rng with
      | .error () => .error ()
      | .ok r =>
          if r.keep then
            runEntityUpdates s rest
              (setCell r.grid r.newX r.newY
                (getCell r.grid r.newX r.newY ++ [{ r.entity with x := r.newX, y := r.newY }]))
              r.rng
          else
            runEntityUpdates s rest
              (recordStat r.grid (speciesName s ++ "_died_naturally") 1) r.rng

/-- Embeds `GOLGrid._update_entities_by_type`: collect, sort by index descending,
then apply the updates one at a time. -/
def updateEntitiesByType (g : GOLGrid) (s : Species) (rng : List Nat) :
    Except Unit (GOLGrid × List Nat) :=
  runEntityUpdates s (sortDescByIdx (collectEntities g s)) g rng

/-- The species passes of `GOLGrid.update`, in the configured order. -/
def runPasses : List Species → GOLGrid → List Nat →
    Except Unit (GOLGrid × List Nat)
  | [], g, rng => .ok (g, rng)
  | s :: rest, g, rng =>
      match updateEntitiesByType g s rng with
      | .error () => .error ()
      | .ok (g', rng') => runPasses rest g' rng'

/-- The stochastic-spawn phase of `GOLGrid.update`: one
`randomly_add_entity` call per configured species; each entry carries the
species, the outcome of its Bernoulli trial for this tick, and the
`only_empty_cells` flag. -/
def runSpawns : List (Species × Bool × Bool) → GOLGrid → List Nat →
    GOLGrid × List Nat
  | [], g, rng => (g, rng)
  | (s, trialPass, onlyEmpty) :: rest, g, rng =>
      let (_, g', rng') := randomlyAddEntity g s trialPass onlyEmpty rng
      runSpawns rest g' rng'

/-- Embeds `GOLGrid.update` (one tick): the species passes in configured order,
then the configured random spawns. -/
def gridUpdate (g : GOLGrid) (order : List Species)
    (spawns : List (Species × Bool × Bool)) (rng : List Nat) :
    Except Unit (GOLGrid × List Nat) :=
  match runPasses order g rng with
  | .error () => .error ()
  | .ok (g', rng') => .ok (runSpawns spawns g' rng')

/-- The count `GOLGrid.get_population_counts()` reports under
`speciesName s` (0 exactly when the key is absent from the returned
dictionary). -/
def populationCount (g : GOLGrid) (s : Species) : Nat :=
  ((pyProduct (pyRange 0 g.width) (pyRange 0 g.height)).map
    (fun p => ((getCell g p.1 p.2).filter (fun e => e.species = s)).length)).sum

/-- How many times the object with id `i` occurs in the grid (Python: how
many cells hold a reference to it). -/
def countEid (g : GOLGrid) (i : Nat) : Nat :=
  ((pyProduct (pyRange 0 g.width) (pyRange 0 g.height)).map
    (fun p => ((getCell g p.1 p.2).filter (fun e => e.eid = i)).length)).sum

/-- Embeds `EntityFactory.ENTITY_TYPE_MAP`, in source (dict insertion) order. -/
def ENTITY_TYPE_MAP : List (String × Species) :=
  [("Omnivore", .omnivore), ("Plant", .plant),
   ("Herbivore", .herbivore), ("Predator", .predator)]

/-- Embeds `self.factory.ENTITY_TYPE_MAP[name]`: a `KeyError` on an unknown
species name. -/
def lookupEntityType (name : String) : Except Unit Species :=
  match ENTITY_TYPE_MAP.find? (fun kv => kv.1 = name) with
  | some kv => .ok kv.2
  | none => .error ()

/-- Embeds `GOLGrid._load_order_to_process_from_config`: map every configured
name through `ENTITY_TYPE_MAP`, raising on the first unknown name. -/
def loadOrderToProcess : List String → Except Unit (List Species)
  | [] => .ok []
  | n :: rest =>
      match lookupEntityType n with
      | .error () => .error ()
      | .ok s =>
          match loadOrderToProcess rest with
          | .error () => .error ()
          | .ok ss => .ok (s :: ss)

/-- Embeds `GOLGrid._load_random_spawn_config_from_config`: same name lookup for
the spawn-config keys (the parameter payload is kept abstract as the
`only_empty_cells` flag). -/
def loadRandomSpawnConfig : List (String × Bool) → Except Unit (List (Species × Bool))
  | [] => .ok []
  | (n, oe) :: rest =>
      match lookupEntityType n with
      | .error () => .error ()
      | .ok s =>
          match loadRandomSpawnConfig rest with
          | .error () => .error ()
          | .ok ss => .ok ((s, oe) :: ss)

/-- Embeds `GOLGrid.init_grid_parameters`: builds
`[[[] for _ in range(width)] for _ in range(height)]` — `height` rows of
`width` cells each, with **no validation of the dimensions**; the rest of
the code indexes this array `grid[x][y]`. -/
def initGridParameters (width height : Nat) : List (List Cell) :=
  List.replicate height (List.replicate width [])

/-- The configuration surface consumed by `GOLGrid.__init__` (the parts
the core reads; colors/visualization are external). -/
structure SimConfig where
  width : Nat
  height : Nat
  orderToProcess : List String
  randomSpawnConfig : List (String × Bool)
  initialPlants : List (Nat × Nat)
  initialHerbivores : List (Nat × Nat)
  initialPredators : List (Nat × Nat)
  initialOmnivores : List (Nat × Nat)
  params : FactoryParams
deriving DecidableEq, Repr

/-- Embeds `EntityFactory.create_initial_entities`: plants, then herbivores, then
predators, then omnivores, in configuration order. -/
def createInitialEntities (cfg : SimConfig) : List (Species × Nat × Nat) :=
  cfg.initialPlants.map (fun p => (Species.plant, p.1, p.2)) ++
  cfg.initialHerbivores.map (fun p => (Species.herbivore, p.1, p.2)) ++
  cfg.initialPredators.map (fun p => (Species.predator, p.1, p.2)) ++
  cfg.initialOmnivores.map (fun p => (Species.omnivore, p.1, p.2))

/-- Embeds `GOLGrid.init_grid_state`: build each initial entity through the
factory and append it at `grid[x][y]`. -/
def placeInitial (g : GOLGrid) : List (Species × Nat × Nat) → GOLGrid
  | [] => g
  | (s, x, y) :: rest =>
      let (ent, g1) := createEntity g s x y
      placeInitial (setCell g1 x y (getCell g1 x y ++ [ent])) rest

/-- Embeds `GOLGrid.__init__` restricted to the core state: load the processing
order and spawn config (each raising `KeyError` on an unknown species
name), then `init_grid_parameters` and `init_grid_state` — the dimensions
are **never validated**. -/
def gridInit (cfg : SimConfig) : Except Unit GOLGrid :=
  match loadOrderToProcess cfg.orderToProcess with
  | .error () => .error ()
  | .ok _ =>
      match loadRandomSpawnConfig cfg.randomSpawnConfig with
      | .error () => .error ()
      | .ok _ =>
          let g0 : GOLGrid :=
            { width := cfg.width, height := cfg.height,
              cells := initGridParameters cfg.width cfg.height,
              stats := [], params := cfg.params, nextId := 0 }
          .ok (placeInitial g0 (createInitialEntities cfg))

/-! ### Concrete scenarios -/

/-- Representative `config['parameters']` values. -/
def paramsDefault : FactoryParams :=
  ⟨some 5, some 10, none, 5, some 10, none, some 10, none, 5⟩

/-- Predator-pass scenario on a 4×4 grid: a plant and predator `P_A`
(id 1) share cell (0,0); herbivore `hB` and predator `P_B` (id 3) share
cell (1,0), both predators stored at cell index 1; a second herbivore sits
at (3,0).  During the pass `P_A` moves onto (1,0), eats `hB` (re-indexing
`P_B` to 0) and is appended there at index 1; `P_B`'s recorded index 1 is
then popped, silently deleting `P_A` while `P_B` is updated without ever
leaving its old cell. -/
def c1Grid : GOLGrid :=
  { width := 4, height := 4,
    cells :=
      [[[⟨0, .plant, 0, 0, some 5, some 5, none, 0, 0⟩,
         ⟨1, .predator, 0, 0, some 10, some 10, none, 0, 0⟩], [], [], []],
       [[⟨2, .herbivore, 1, 0, some 10, some 10, none, 0, 5⟩,
         ⟨3, .predator, 1, 0, some 10, some 10, none, 0, 0⟩], [], [], []],
       [[], [], [], []],
       [[⟨4, .herbivore, 3, 0, some 10, some 10, none, 0, 5⟩], [], [], []]],
    stats := [], params := paramsDefault, nextId := 100 }

/-- The grid after the predator pass of `c1Grid` (no random draws are
consumed: every predator always has a herbivore in sight). -/
def c1Final : Option GOLGrid :=
  match updateEntitiesByType c1Grid .predator [] with
  | .ok (g, _) => some g
  | .error () => none

/-- Two herbivores, both ready to mate, on a 3×3 grid (the reproduction
scenario of the spec). -/
def c3Grid : GOLGrid :=
  { width := 3, height := 3,
    cells :=
      [[[⟨0, .herbivore, 0, 0, some 10, some 10, none, 0, 5⟩], [], []],
       [[], [⟨1, .herbivore, 1, 1, some 10, some 10, none, 0, 5⟩], []],
       [[], [], []]],
    stats := [], params := paramsDefault, nextId := 100 }

/-- A single herbivore, alone on a 3×3 grid, with a pending mating
cooldown of 5. -/
def c3LoneGrid : GOLGrid :=
  { width := 3, height := 3,
    cells :=
      [[[], [], []],
       [[], [⟨0, .herbivore, 1, 1, some 10, some 10, none, 5, 5⟩], []],
       [[], [], []]],
    stats := [], params := paramsDefault, nextId := 100 }

def c3LoneFinal : Option GOLGrid :=
  match updateEntitiesByType c3LoneGrid .herbivore [0] with
  | .ok (g, _) => some g
  | .error () => none

/-- A herbivore at (0,0) and a plant at (1,1) on a 3×3 grid. -/
def c4HerbGrid : GOLGrid :=
  { width := 3, height := 3,
    cells :=
      [[[⟨0, .herbivore, 0, 0, some 10, some 10, none, 0, 5⟩], [], []],
       [[], [⟨1, .plant, 1, 1, some 5, some 5, none, 0, 0⟩], []],
       [[], [], []]],
    stats := [], params := paramsDefault, nextId := 100 }

/-- A predator at (0,0) and two herbivores at (1,1) on a 3×3 grid. -/
def c4PredGrid : GOLGrid :=
  { width := 3, height := 3,
    cells :=
      [[[⟨0, .predator, 0, 0, some 10, some 10, none, 0, 0⟩], [], []],
       [[], [⟨1, .herbivore, 1, 1, some 10, some 10, none, 0, 5⟩,
             ⟨2, .herbivore, 1, 1, some 10, some 10, none, 0, 5⟩], []],
       [[], [], []]],
    stats := [], params := paramsDefault, nextId := 100 }

def c4PredFinal : Option GOLGrid :=
  match updateEntitiesByType c4PredGrid .predator [] with
  | .ok (g, _) => some g
  | .error () => none

/-- A 1×1 grid with no entities (context object for entity-level calls). -/
def gTiny : GOLGrid :=
  { width := 1, height := 1, cells := [[[]]], stats := [],
    params := paramsDefault, nextId := 0 }

/-- The spec's aging scenario: 3×3 grid, a single plant at (1,1) with
lifespan 2, nothing else, no random spawning. -/
def c6Grid : GOLGrid :=
  { width := 3, height := 3,
    cells :=
      [[[], [], []],
       [[], [⟨0, .plant, 1, 1, some 2, some 2, none, 0, 0⟩], []],
       [[], [], []]],
    stats := [], params := paramsDefault, nextId := 100 }

/-- One tick with processing order `[Plant]` and an empty random-spawn
configuration (no randomness is consumed). -/
def tickPlants (g : GOLGrid) : Option GOLGrid :=
  match gridUpdate g [.plant] [] [] with
  | .ok (g', _) => some g'
  | .error () => none

/-- The C6 scenario after `n` ticks. -/
def c6After : Nat → Option GOLGrid
  | 0 => some c6Grid
  | n + 1 => (c6After n).bind tickPlants

/-- An *empty, non-square* grid exactly as `__init__` builds it:
`width = 1`, `height = 3`, so the nested array has 3 rows of 1 cell. -/
def c7Grid : GOLGrid :=
  { width := 1, height := 3, cells := initGridParameters 1 3, stats := [],
    params := paramsDefault, nextId := 0 }

/-- An empty 2×1 grid as `__init__` builds it (1 row of 2 cells). -/
def c10Grid : GOLGrid :=
  { width := 2, height := 1, cells := initGridParameters 2 1, stats := [],
    params := paramsDefault, nextId := 0 }

/-- A configuration with zero width and height, known species names and no
initial entities. -/
def cfgZero : SimConfig :=
  ⟨0, 0, ["Plant", "Herbivore"], [("Plant", true)], [], [], [], [], paramsDefault⟩

/-- A configuration whose processing order names an unknown species. -/
def cfgUnknownOrder : SimConfig :=
  ⟨3, 3, ["Wolf"], [], [], [], [], [], paramsDefault⟩

/-- A configuration whose spawn config names an unknown species. -/
def cfgUnknownSpawn : SimConfig :=
  ⟨3, 3, ["Plant"], [("Wolf", true)], [], [], [], [], paramsDefault⟩

/-- A 1×1 grid whose single cell is occupied. -/
def gTinyFull : GOLGrid :=
  { width := 1, height := 1,
    cells := [[[⟨0, .plant, 0, 0, some 5, some 5, none, 0, 0⟩]]],
    stats := [], params := paramsDefault, nextId := 1 }

/-- An empty 2×2 grid as `__init__` builds it. -/
def gSquare2 : GOLGrid :=
  { width := 2, height := 2, cells := initGridParameters 2 2, stats := [],
    params := paramsDefault, nextId := 0 }

/-! ### Helper lemmas -/

theorem mem_pyRange {a lo hi : Nat} :
    a ∈ pyRange lo hi ↔ ∃ i, i < hi - lo ∧ a = lo + i := by
  simp [pyRange, List.mem_map, List.mem_range, eq_comm]

theorem mem_pyProduct {p : Nat × Nat} {xs ys : List Nat} :
    p ∈ pyProduct xs ys ↔ p.1 ∈ xs ∧ p.2 ∈ ys := by
  rcases p with ⟨a, b⟩
  constructor
  · intro h
    simp only [pyProduct, List.mem_flatMap, List.mem_map] at h
    rcases h with ⟨x, hx, y, hy, hxy⟩
    cases hxy
    exact ⟨hx, hy⟩
  · rintro ⟨ha, hb⟩
    simp only [pyProduct, List.mem_flatMap, List.mem_map]
    exact ⟨a, ha, b, hb, rfl⟩

/-- Every possible step is inside `[0,width) × [0,height)` and at Chebyshev
distance at most 1 from the current position (no shape hypotheses needed:
the range bounds alone give this). -/
theorem mem_getAllPossibleSteps_bounds {g : GOLGrid} {x y : Nat}
    {p : Nat × Nat} (hp : p ∈ getAllPossibleSteps g x y) :
    p.1 < g.width ∧ p.2 < g.height ∧
      p.1 ≤ x + 1 ∧ x ≤ p.1 + 1 ∧ p.2 ≤ y + 1 ∧ y ≤ p.2 + 1 := by
  simp only [getAllPossibleSteps, List.mem_filter] at hp
  rcases hp with ⟨hmem, -⟩
  rw [mem_pyProduct] at hmem
  rcases hmem with ⟨hx1, hy1⟩
  rw [mem_pyRange] at hx1 hy1
  rcases hx1 with ⟨i, hi, hpi⟩
  rcases hy1 with ⟨j, hj, hpj⟩
  omega

/-- On a grid whose nested array really has `height` rows of `width` cells,
the entity's own in-bounds cell is always a possible step. -/
theorem self_mem_getAllPossibleSteps {g : GOLGrid} {x y : Nat}
    (hrows : g.cells.length = g.height) (hcols : (g.cells.headD []).length = g.width)
    (hsq : g.width = g.height) (hx : x < g.width) (hy : y < g.height) :
    (x, y) ∈ getAllPossibleSteps g x y := by
  simp only [getAllPossibleSteps, List.mem_filter]
  constructor
  · rw [mem_pyProduct]
    constructor
    · rw [mem_pyRange]
      exact ⟨x - (x - 1), by omega, by omega⟩
    · rw [mem_pyRange]
      exact ⟨y - (y - 1), by omega, by omega⟩
  · simp only [validateCoordinates, decide_eq_true_eq]
    omega

theorem minDistFold_aux_mem {fx fy : Nat} :
    ∀ (xs : List (Nat × Nat)) (acc : Option ((Nat × Nat) × Int)) (q : Nat × Nat)
      (d : Int),
      xs.foldl
        (fun best p =>
          match best with
          | none => some (p, dist2 p.1 p.2 fx fy)
          | some (q', d') =>
              if dist2 p.1 p.2 fx fy < d' then some (p, dist2 p.1 p.2 fx fy)
              else some (q', d')) acc = some (q, d) →
      q ∈ xs ∨ acc = some (q, d) := by
  intro xs
  induction xs with
  | nil => intro acc q d h; exact Or.inr h
  | cons hd tl ih =>
      intro acc q d h
      simp only [List.foldl_cons] at h
      rcases ih _ q d h with hq | hacc
      · exact Or.inl (List.mem_cons_of_mem _ hq)
      · rcases acc with - | ⟨q0, d0⟩
        · simp only [Option.some.injEq, Prod.mk.injEq] at hacc
          exact Or.inl (by rw [hacc.1]; exact List.mem_cons_self _ _)
        · by_cases hlt : dist2 hd.1 hd.2 fx fy < d0
          · simp only [hlt, if_pos] at hacc
            simp only [Option.some.injEq, Prod.mk.injEq] at hacc
            exact Or.inl (by rw [hacc.1]; exact List.mem_cons_self _ _)
          · simp only [hlt, if_neg, not_false_iff] at hacc
            exact Or.inr hacc

theorem minDistFold_aux_isSome (fx fy : Nat) :
    ∀ (xs : List (Nat × Nat)) (acc : Option ((Nat × Nat) × Int)),
      acc.isSome →
      (xs.foldl
        (fun best p =>
          match best with
          | none => some (p, dist2 p.1 p.2 fx fy)
          | some (q', d') =>
              if dist2 p.1 p.2 fx fy < d' then some (p, dist2 p.1 p.2 fx fy)
              else some (q', d')) acc).isSome := by
  intro xs
  induction xs with
  | nil => intro acc h; simpa using h
  | cons hd tl ih =>
      intro acc h
      simp only [List.foldl_cons]
      apply ih
      rcases acc with - | ⟨q0, d0⟩
      · simp
      · by_cases hlt : dist2 hd.1 hd.2 fx fy < d0 <;> simp [hlt]

/-- A non-empty candidate list always yields a minimum, and it is one of
the candidates. -/
theorem minDistFold_mem (fx fy : Nat) {xs : List (Nat × Nat)} (hne : xs ≠ []) :
    ∃ q, minDistFold fx fy xs = some q ∧ q ∈ xs := by
  rcases xs with - | ⟨hd, tl⟩
  · exact absurd rfl hne
  · have hsome := minDistFold_aux_isSome fx fy tl
      (some (hd, dist2 hd.1 hd.2 fx fy)) (by simp)
    rcases Option.isSome_iff_exists.mp hsome with ⟨⟨q, d⟩, hq⟩
    refine ⟨q, ?_, ?_⟩
    · simp only [minDistFold, List.foldl_cons]
      rw [hq]
      rfl
    · rcases minDistFold_aux_mem tl (some (hd, dist2 hd.1 hd.2 fx fy)) q d hq with
        h | h
      · exact List.mem_cons_of_mem _ h
      · simp only [Option.some.injEq, Prod.mk.injEq] at h
        rw [h.1]
        exact List.mem_cons_self _ _

/-- Embeds `random.choice` on a non-empty list returns an element of the list. -/
theorem randChoice_mem {xs : List (Nat × Nat)} (hne : xs ≠ []) (rng : List Nat) :
    ∃ q, randChoice xs rng = .ok (q, rng.tail) ∧ q ∈ xs := by
  have hlen : 0 < xs.length := List.length_pos.mpr hne
  refine ⟨xs.getD (rng.headD 0 % xs.length) (0, 0), ?_, ?_⟩
  · simp [randChoice, List.isEmpty_iff, hne]
  · have hlt : rng.headD 0 % xs.length < xs.length := Nat.mod_lt _ hlen
    rw [List.getD_eq_getElem xs (0, 0) hlt]
    exact List.getElem_mem hlt

/-! ### Claim theorems -/

/-- C1 (code_bug): the per-species pass does *not* give every pre-existing
entity exactly one transition.  In the `c1Grid` predator pass, predator
id 1 eats the herbivore out of cell (1,0) — re-indexing the not-yet-
processed predator id 3 — and is appended there; popping id 3's stored
index then silently deletes id 1 (0 occurrences afterwards) while id 3 is
updated without ever being removed from its cell (2 occurrences
afterwards), even though both predators' updates reported "keep". -/
theorem c1_pass_not_exactly_once_on_reindexed_cell :
    c1Final.map
      (fun g => (countEid g 1, countEid g 3, populationCount g .predator)) =
    some (0, 2, 2) := by decide

/-- C2 (code_bug): positional consistency is broken by the same pass:
after the `c1Grid` predator pass the single object with id 3 is referenced
from the two distinct cells (1,0) and (2,0), and the updated object's
stored coordinates (x = 2, y = 0, visible on the (2,0) occurrence) do not
match the cell (1,0) that still holds it. -/
theorem c2_entity_referenced_from_two_cells :
    c1Final.map
      (fun g => ((getCell g 1 0).map Entity.eid, (getCell g 2 0).map Entity.eid,
        (getCell g 2 0).map Entity.x)) =
    some ([3], [3], [2]) := by decide

/-- C3 (code_bug): (a) a herbivore pass in which two herbivores coexist
raises `TypeError` (`isinstance` is handed the list `[Plant]`) before any
mating can occur, and (b) nothing in the code ever decrements
`mating_cool_down`: a lone herbivore carrying cooldown 5 still carries
cooldown 5 after a completed update, so a pending cooldown never decreases
toward mate-eligibility. -/
theorem c3_mating_cooldown_never_decreases :
    updateEntitiesByType c3Grid .herbivore [0] = .error () ∧
    c3LoneFinal.map (fun g => (getCell g 0 0).map Entity.matingCoolDown) =
      some [5] := by decide

/-- C4 (code_bug): a herbivore whose grid contains a plant raises
`TypeError` in the movement call (`isinstance(e, [Plant])`) before any
eating can happen, while the predator (whose call passes the class
`Herbivore`) does behave as claimed: it removes both herbivores from the
target cell, records `herbivore_eaten_by_predator = 2` (count-aware) and
has its `ttl` reset to `base_ttl` 10. -/
theorem c4_herbivore_eating_raises_predator_counts :
    updateEntitiesByType c4HerbGrid .herbivore [0] = .error () ∧
    c4PredFinal.map
      (fun g => ((getCell g 1 1).map Entity.species,
        statValue g "herbivore_eaten_by_predator",
        (getCell g 1 1).map Entity.ttl)) =
    some ([.predator], 2, [some 10]) := by decide

/-- C5 (code_bug): an entity with `ttl` set is aged by exactly 1 per
processed tick, but an immortal entity (`ttl is None`) does not get a
no-op decrement: `self.ttl -= 1` raises `TypeError` (`None - 1`), so an
immortal plant's update does not complete normally. -/
theorem c5_immortal_ttl_decrement_raises :
    plantUpdate ⟨0, .plant, 0, 0, some 2, some 2, none, 0, 0⟩ gTiny [] =
      .ok ⟨true, 0, 0, ⟨0, .plant, 0, 0, some 1, some 2, none, 0, 0⟩, gTiny, []⟩ ∧
    plantUpdate ⟨0, .plant, 0, 0, none, none, none, 0, 0⟩ gTiny [] =
      .error () := by decide

/-- C6 counterexample: after 2 ticks the plant with lifespan 2 is *still
present* (with `ttl = 0`), so `population.plant` is 1, not 0 as claimed. -/
theorem c6_plant_still_present_after_two_ticks :
    (c6After 2).map (fun g => populationCount g .plant) = some 1 := by decide

/-- C6 amended: after 1 tick the plant is present with `ttl` reduced to 1;
after 2 ticks it is still present with `ttl = 0`; it is removed during the
*third* tick, after which the plant population is 0 and one
`plant_died_naturally` event has been recorded. -/
theorem c6_plant_removed_after_three_ticks :
    (c6After 1).map (fun g => getCell g 1 1) =
      some [⟨0, .plant, 1, 1, some 1, some 2, none, 0, 0⟩] ∧
    (c6After 2).map (fun g => (getCell g 1 1, populationCount g .plant)) =
      some ([⟨0, .plant, 1, 1, some 0, some 2, none, 0, 0⟩], 1) ∧
    (c6After 3).map
      (fun g => (populationCount g .plant, statValue g "plant_died_naturally")) =
      some (0, 1) := by decide

/-- C7 counterexample: on the (as-constructed) non-square 1×3 grid, the
in-bounds position (0,2) has *no* possible steps — the constructed array
is 3 rows × 1 cell, and `validate_coordinates` checks `y < len(grid[0])` —
so the wander branch (`random.choice([])`) raises `IndexError` and no
(x,y) pair is returned. -/
theorem c7_nonsquare_movement_returns_nothing :
    0 < c7Grid.width ∧ 2 < c7Grid.height ∧
    getAllPossibleSteps c7Grid 0 2 = [] ∧
    getNextPosition c7Grid .plant 0 2 [0] = .error () := by decide

/-- C7 amended: on a *square* grid whose nested cell array has the
constructed shape, `get_next_position` (invoked with a single target
class, as its signature specifies) returns, for every in-bounds position,
every target species and every random draw, exactly one coordinate pair
inside `[0,width) × [0,height)` and reachable in at most one step —
covering both the seek-nearest-target branch and the random-wander
branch. -/
theorem c7_square_movement_in_bounds (g : GOLGrid) (s : Species) (x y : Nat)
    (rng : List Nat)
    (hrows : g.cells.length = g.height)
    (hcols : (g.cells.headD []).length = g.width)
    (hsq : g.width = g.height) (hx : x < g.width) (hy : y < g.height) :
    ∃ p rng', getNextPosition g s x y rng = .ok (p, rng') ∧
      p.1 < g.width ∧ p.2 < g.height ∧
      p.1 ≤ x + 1 ∧ x ≤ p.1 + 1 ∧ p.2 ≤ y + 1 ∧ y ≤ p.2 + 1 := by
  have hself := self_mem_getAllPossibleSteps hrows hcols hsq hx hy
  have hne : getAllPossibleSteps g x y ≠ [] := by
    intro h
    rw [h] at hself
    exact absurd hself (List.not_mem_nil _)
  cases hc : getClosestObjectCoordinates g s x y with
  | none =>
      rcases randChoice_mem hne rng with ⟨q, hq, hqm⟩
      have hb := mem_getAllPossibleSteps_bounds hqm
      exact ⟨q, rng.tail, by simp [getNextPosition, hc, getRandomStep, hq],
        hb.1, hb.2.1, hb.2.2.1, hb.2.2.2.1, hb.2.2.2.2.1, hb.2.2.2.2.2⟩
  | some tp =>
      rcases minDistFold_mem tp.1 tp.2 hne with ⟨q, hq, hqm⟩
      have hb := mem_getAllPossibleSteps_bounds hqm
      refine ⟨q, rng, ?_, hb.1, hb.2.1, hb.2.2.1, hb.2.2.2.1, hb.2.2.2.2.1,
        hb.2.2.2.2.2⟩
      simp [getNextPosition, hc, getNextPositionTowardsObject, hq]

/-- Witness for C7 amended: the 3×3 aging-scenario grid, position (0,0),
target species Plant (present at (1,1), exercising the seek branch). -/
theorem c7_square_movement_in_bounds_witness :
    (c6Grid.cells.length = c6Grid.height ∧
      (c6Grid.cells.headD []).length = c6Grid.width ∧
      c6Grid.width = c6Grid.height ∧ 0 < c6Grid.width ∧ 0 < c6Grid.height) ∧
    ∃ p rng', getNextPosition c6Grid .plant 0 0 [0] = .ok (p, rng') ∧
      p.1 < c6Grid.width ∧ p.2 < c6Grid.height ∧
      p.1 ≤ 0 + 1 ∧ 0 ≤ p.1 + 1 ∧ p.2 ≤ 0 + 1 ∧ 0 ≤ p.2 + 1 :=
  ⟨⟨by decide, by decide, by decide, by decide, by decide⟩,
    c7_square_movement_in_bounds c6Grid .plant 0 0 [0] (by decide) (by decide)
      (by decide) (by decide) (by decide)⟩

/-- C8 counterexample: constructing the grid from a configuration with
zero width and zero height does *not* fail — `init_grid_parameters` never
validates the dimensions, and the constructor returns a degenerate grid
with an empty cell array. -/
theorem c8_zero_dimensions_silently_accepted :
    gridInit cfgZero =
      .ok { width := 0, height := 0, cells := [], stats := [],
            params := paramsDefault, nextId := 0 } := by decide

/-- C8 amended: an unknown species name in the processing order or in the
random-spawn configuration raises (`KeyError`) at construction time, but
zero width/height is silently accepted, producing a grid object with
degenerate dimensions. -/
theorem c8_unknown_species_raises_at_construction :
    gridInit cfgUnknownOrder = .error () ∧
    gridInit cfgUnknownSpawn = .error () ∧
    (gridInit cfgZero).isOk = true := by decide

/-- C9 (confirmed): when no qualifying cell exists, `add_entity_in_range`
returns `False` and leaves the grid state (cells, statistics, id counter)
and the random stream completely unchanged; and whenever
`randomly_add_entity` reports `False` (failed trial or no available cell)
the state is likewise completely unchanged — in particular no
`*_spawned` statistic is recorded, since that happens only in the
successful branch. -/
theorem c9_failed_placement_side_effect_free :
    (∀ (g : GOLGrid) (s : Species) (cx cy rd : Nat) (ec oe : Bool)
        (rng : List Nat),
        possibleCellsInRange g cx cy rd ec oe = [] →
        addEntityInRange g s cx cy rd ec oe rng = (false, g, rng)) ∧
    (∀ (g : GOLGrid) (s : Species) (tp oe : Bool) (rng : List Nat),
        (randomlyAddEntity g s tp oe rng).1 = false →
        randomlyAddEntity g s tp oe rng = (false, g, rng)) := by
  constructor
  · intro g s cx cy rd ec oe rng h
    simp [addEntityInRange, h, randChoice]
  · intro g s tp oe rng h
    cases tp with
    | false => simp [randomlyAddEntity]
    | true =>
        by_cases he :
          (if oe then getAllEmptyCells g
           else pyProduct (pyRange 0 g.width) (pyRange 0 g.height)).isEmpty
        · simp [randomlyAddEntity, randChoice, he]
        · exfalso
          simp [randomlyAddEntity, randChoice, he] at h

/-- Witness for C9: on a 1×1 grid, range-1 placement excluding the center
has no qualifying cell and changes nothing; a spawn restricted to empty
cells on a full 1×1 grid reports `False` and changes nothing. -/
theorem c9_failed_placement_side_effect_free_witness :
    (possibleCellsInRange gTiny 0 0 1 true false = [] ∧
      addEntityInRange gTiny .plant 0 0 1 true false [0] = (false, gTiny, [0])) ∧
    ((randomlyAddEntity gTinyFull .plant true true [0]).1 = false ∧
      randomlyAddEntity gTinyFull .plant true true [0] = (false, gTinyFull, [0])) :=
  ⟨⟨by decide,
      c9_failed_placement_side_effect_free.1 gTiny .plant 0 0 1 true false [0]
        (by decide)⟩,
    ⟨by decide,
      c9_failed_placement_side_effect_free.2 gTinyFull .plant true true [0]
        (by decide)⟩⟩

/-- C10 counterexample: on the (as-constructed) 2×1 grid — 2 cells, both
coordinates in bounds — `add_entity_in_range` with range 1 and
`exclude_center=True` returns `False` at center (0,0): the constructed
array is 1 row of 2 cells, `validate_coordinates` rejects `x = 1`, and
after removing the center no qualifying cell remains. -/
theorem c10_nonsquare_neighbor_placement_fails :
    2 ≤ c10Grid.width * c10Grid.height ∧
    0 < c10Grid.width ∧ 0 < c10Grid.height ∧
    addEntityInRange c10Grid .herbivore 0 0 1 true false [0] =
      (false, c10Grid, [0]) := by decide

/-- C10 amended: on a *square* grid with width = height ≥ 2 (the only
shape on which the nested array agrees with its indexing),
`add_entity_in_range` with `range_distance=1`, `exclude_center=True`,
`only_empty_cells=False` succeeds from every in-bounds center: occupied
neighbours still qualify, so some neighbour cell always remains after
excluding the center. -/
theorem c10_square_neighbor_placement_succeeds (g : GOLGrid) (s : Species)
    (cx cy : Nat) (rng : List Nat)
    (hrows : g.cells.length = g.height)
    (hcols : (g.cells.headD []).length = g.width)
    (hsq : g.width = g.height) (h2 : 2 ≤ g.width)
    (hx : cx < g.width) (hy : cy < g.height) :
    (addEntityInRange g s cx cy 1 true false rng).1 = true := by
  have hmem : ∃ p, p ∈ possibleCellsInRange g cx cy 1 true false := by
    refine ⟨if cx + 1 < g.width then (cx + 1, cy) else (cx - 1, cy), ?_⟩
    simp only [possibleCellsInRange, if_pos, if_neg, Bool.false_eq_true,
      if_false, if_true]
    have hne' : (if cx + 1 < g.width then (cx + 1, cy) else (cx - 1, cy)) ≠
        (cx, cy) := by
      by_cases hlt : cx + 1 < g.width
      · simp only [hlt, if_pos]
        intro hcontra
        rw [Prod.mk.injEq] at hcontra
        omega
      · simp only [hlt, if_neg, not_false_iff]
        intro hcontra
        rw [Prod.mk.injEq] at hcontra
        omega
    rw [List.mem_erase_of_ne hne']
    · rw [List.mem_filter]
      constructor
      · rw [mem_pyProduct]
        by_cases hlt : cx + 1 < g.width
        · simp only [hlt, if_pos]
          constructor
          · rw [mem_pyRange]
            exact ⟨cx + 1 - (cx - 1), by omega, by omega⟩
          · rw [mem_pyRange]
            exact ⟨cy - (cy - 1), by omega, by omega⟩
        · simp only [hlt, if_neg, not_false_iff]
          constructor
          · rw [mem_pyRange]
            exact ⟨0, by omega, by omega⟩
          · rw [mem_pyRange]
            exact ⟨cy - (cy - 1), by omega, by omega⟩
      · simp only [validateCoordinates, decide_eq_true_eq]
        by_cases hlt : cx + 1 < g.width <;> simp only [hlt, if_pos, if_neg,
          not_false_iff] <;> omega
  rcases hmem with ⟨p, hp⟩
  have hne : possibleCellsInRange g cx cy 1 true false ≠ [] := by
    intro hnil
    rw [hnil] at hp
    exact absurd hp (List.not_mem_nil _)
  rcases randChoice_mem hne rng with ⟨q, hq, -⟩
  simp [addEntityInRange, hq]

/-- Witness for C10 amended: corner (0,0) of an empty 2×2 grid. -/
theorem c10_square_neighbor_placement_succeeds_witness :
    (gSquare2.cells.length = gSquare2.height ∧
      (gSquare2.cells.headD []).length = gSquare2.width ∧
      gSquare2.width = gSquare2.height ∧ 2 ≤ gSquare2.width ∧
      0 < gSquare2.width ∧ 0 < gSquare2.height) ∧
    (addEntityInRange gSquare2 .herbivore 0 0 1 true false [0]).1 = true :=
  ⟨⟨by decide, by decide, by decide, by decide, by decide, by decide⟩,
    c10_square_neighbor_placement_succeeds gSquare2 .herbivore 0 0 [0]
      (by decide) (by decide) (by decide) (by decide) (by decide) (by decide)⟩

